import Mathlib

/-!
Verification of the trivia session state machine implemented in
`src/mastra/tools/game-tools.ts`.

The embedding models the per-session game state and the four mutating tools
(`answerQuestionTool`, `getHintTool`, `skipQuestionTool`) plus the two read
tools (`getGameStatsTool`, `getLeaderboardTool`).  JavaScript strings are
modelled as Lean `String` (a list of characters); `trim`/`toUpperCase` are
modelled for the ASCII range, which covers all inputs the claims are about.
JavaScript numbers used by the code are integers except for the difficulty
multiplier, which is modelled exactly as a rational; `Math.round` is
`⌊x + 1/2⌋` (round half towards positive infinity), which agrees with
JavaScript on all values that occur here.
-/

namespace Trivia

/-- ASCII whitespace recognised by JavaScript `String.prototype.trim`. -/
def jsIsSpace (c : Char) : Bool :=
  c == ' ' || c == '\t' || c == '\n' || c == '\r' || c == '\x0b' || c == '\x0c'

/-- Uppercasing of a single character, ASCII range of `toUpperCase`. -/
def jsCharUpper (c : Char) : Char :=
  if 97 ≤ c.toNat ∧ c.toNat ≤ 122 then Char.ofNat (c.toNat - 32) else c

/-- JavaScript `s.toUpperCase()` (ASCII range). -/
def jsToUpper (s : String) : String := ⟨s.data.map jsCharUpper⟩

/-- Drop leading and trailing whitespace from a character list. -/
def trimChars (l : List Char) : List Char :=
  ((l.dropWhile jsIsSpace).reverse.dropWhile jsIsSpace).reverse

/-- JavaScript `s.trim()` (ASCII whitespace). -/
def jsTrim (s : String) : String := ⟨trimChars s.data⟩

/-- The normalisation applied to a submitted answer: `answer.trim().toUpperCase()`
(game-tools.ts line 192). -/
def jsNormalize (s : String) : String := jsToUpper (jsTrim s)

/-- JavaScript `Math.round` on an exact rational: round half up, that is
`⌊q + 1/2⌋`, written as an integer division so it evaluates by `decide`.
`jsRound_eq_floor` below proves the two forms equal. -/
def jsRound (q : ℚ) : ℤ := (2 * q.num + (q.den : ℤ)) / (2 * (q.den : ℤ))

theorem jsRound_eq_floor (q : ℚ) : jsRound q = ⌊q + 1 / 2⌋ := by
  have hden : (q.den : ℚ) ≠ 0 := Nat.cast_ne_zero.mpr q.den_nz
  have hnum : (q.num : ℚ) = q * (q.den : ℚ) := (div_eq_iff hden).mp (Rat.num_div_den q)
  have hne : ((2 * q.den : ℕ) : ℚ) ≠ 0 := by
    push_cast
    exact mul_ne_zero two_ne_zero hden
  have h : (q + 1 / 2 : ℚ) =
      ((2 * q.num + (q.den : ℤ) : ℤ) : ℚ) / ((2 * q.den : ℕ) : ℚ) := by
    rw [eq_div_iff hne]
    push_cast
    rw [hnum]
    ring
  rw [h, Rat.floor_intCast_div_natCast, jsRound]
  push_cast
  rfl

/-- The regular-expression test `/^[A-D]$/` (line 197). -/
def matchesLetterAD (s : String) : Bool :=
  match s.data with
  | [c] => 65 ≤ c.toNat && c.toNat ≤ 68
  | _ => false

/-- `charCodeAt(0) - 65` for a single-letter answer (line 198). -/
def letterIndex (s : String) : ℕ :=
  match s.data with
  | [c] => c.toNat - 65
  | _ => 0

/-- One trivia question as stored in a session (game-tools.ts `Question`). -/
structure Question where
  id : String
  category : String
  difficulty : String
  question : String
  options : List String
  correct : String
  answered : Bool
  userAnswer : Option String
deriving DecidableEq, Repr

/-- Per-player session state (game-tools.ts `GameState`). -/
structure GameState where
  playerId : String
  score : ℤ
  currentQuestionIndex : ℕ
  questions : List Question
  streak : ℕ
  hintsUsed : ℕ
  skipsUsed : ℕ
  lastPlayed : String
deriving DecidableEq, Repr

/-- Difficulty multiplier `{easy: 1, medium: 1.5, hard: 2}[difficulty] || 1`
(lines 217–221): own-property lookup with default 1. -/
def difficultyMultiplier (d : String) : ℚ :=
  if d = "easy" then 1
  else if d = "medium" then 3 / 2
  else if d = "hard" then 2
  else 1

/-- Streak bonus, computed from the post-increment streak (line 224). -/
def streakBonus (streak : ℕ) : ℤ :=
  if 3 ≤ streak then ((streak / 3) * 2 : ℕ) else 0

/-- Points added to the score for a correct answer, as a function of the
question's difficulty and the post-increment streak (lines 216–226). -/
def scoreGained (difficulty : String) (streakAfter : ℕ) : ℤ :=
  jsRound (10 * difficultyMultiplier difficulty) + streakBonus streakAfter

theorem scoreGained_easy (k : ℕ) : scoreGained "easy" k = 10 + streakBonus k := by
  unfold scoreGained difficultyMultiplier
  rw [jsRound_eq_floor]
  norm_num

theorem scoreGained_medium (k : ℕ) : scoreGained "medium" k = 15 + streakBonus k := by
  have hm : difficultyMultiplier "medium" = 3 / 2 := by
    unfold difficultyMultiplier
    rw [if_neg (by decide), if_pos rfl]
  unfold scoreGained
  rw [hm, jsRound_eq_floor]
  norm_num

theorem scoreGained_hard (k : ℕ) : scoreGained "hard" k = 20 + streakBonus k := by
  have hm : difficultyMultiplier "hard" = 2 := by
    unfold difficultyMultiplier
    rw [if_neg (by decide), if_neg (by decide), if_pos rfl]
  unfold scoreGained
  rw [hm, jsRound_eq_floor]
  norm_num

theorem scoreGained_other (d : String) (k : ℕ)
    (h1 : d ≠ "easy") (h2 : d ≠ "medium") (h3 : d ≠ "hard") :
    scoreGained d k = 10 + streakBonus k := by
  unfold scoreGained difficultyMultiplier
  rw [if_neg h1, if_neg h2, if_neg h3, jsRound_eq_floor]
  norm_num

/-- Correctness check for a submitted answer (lines 191–203): normalise, then
either resolve a single letter A–D against the option list and compare that
option to the stored correct answer by exact equality, or compare the
normalised text to the uppercased correct answer. -/
def checkAnswer (q : Question) (answer : String) : Bool :=
  let normalizedUserAnswer := jsNormalize answer
  let normalizedCorrectAnswer := jsToUpper q.correct
  if matchesLetterAD normalizedUserAnswer then
    match q.options.get? (letterIndex normalizedUserAnswer) with
    | some opt => opt == q.correct
    | none => false
  else
    normalizedUserAnswer == normalizedCorrectAnswer

/-- Result record of `answerQuestionTool` (message text omitted). -/
structure AnswerOut where
  correct : Bool
  score : ℤ
  streak : ℕ
  correctAnswer : String
  gameCompleted : Bool
deriving DecidableEq, Repr

/-- State mutation and result of an answer submission once the current
question `q` has been found and the verdict computed (lines 205–267). -/
def applyAnswer (s : GameState) (q : Question) (answer : String) (isCorrect : Bool) :
    AnswerOut × GameState :=
  let q' := { q with answered := true, userAnswer := some answer }
  let qs' := s.questions.set s.currentQuestionIndex q'
  if isCorrect then
    let streak' := s.streak + 1
    let score' := s.score + scoreGained q.difficulty streak'
    let idx' := s.currentQuestionIndex + 1
    ({ correct := true, score := score', streak := streak', correctAnswer := q.correct,
       gameCompleted := decide (qs'.length ≤ idx') },
     { s with questions := qs', score := score', streak := streak',
              currentQuestionIndex := idx' })
  else
    let idx' := s.currentQuestionIndex + 1
    ({ correct := false, score := s.score, streak := 0, correctAnswer := q.correct,
       gameCompleted := decide (qs'.length ≤ idx') },
     { s with questions := qs', streak := 0, currentQuestionIndex := idx' })

/-- `answerQuestionTool.execute` on a stored session (lines 185–268): fails
when the current index is past the question list, otherwise applies the
answer. -/
def answerExec (s : GameState) (answer : String) : Except String (AnswerOut × GameState) :=
  match s.questions.get? s.currentQuestionIndex with
  | none => .error "No current question found."
  | some q => .ok (applyAnswer s q answer (checkAnswer q answer))

/-- Result record of `getHintTool` (message and the randomly chosen
`remainingOptions` omitted; the 50/50 option selection never touches the
session state, lines 308–311). -/
structure HintOut where
  success : Bool
  hintsUsed : ℕ
  scorePenalty : ℤ
deriving DecidableEq, Repr

/-- `getHintTool.execute` on a stored session (lines 292–327): fails when the
current index is past the question list, fails soft when hints are exhausted,
otherwise deducts the clamped penalty and increments `hintsUsed`. -/
def hintExec (s : GameState) : Except String (HintOut × GameState) :=
  match s.questions.get? s.currentQuestionIndex with
  | none => .error "No current question found."
  | some _ =>
    if 3 ≤ s.hintsUsed then
      .ok ({ success := false, hintsUsed := s.hintsUsed, scorePenalty := 0 }, s)
    else
      let s' := { s with score := max 0 (s.score - 2), hintsUsed := s.hintsUsed + 1 }
      .ok ({ success := true, hintsUsed := s'.hintsUsed, scorePenalty := 2 }, s')

/-- Result record of `skipQuestionTool` (message and next-question view
omitted). -/
structure SkipOut where
  success : Bool
  skipsUsed : ℕ
  scorePenalty : ℤ
deriving DecidableEq, Repr

/-- `skipQuestionTool.execute` on a stored session (lines 351–401).  Note:
unlike answer and hint, the source has no current-question guard here; a skip
on a completed session with remaining skips goes through and advances the
index past the end. -/
def skipExec (s : GameState) : Except String (SkipOut × GameState) :=
  if 2 ≤ s.skipsUsed then
    .ok ({ success := false, skipsUsed := s.skipsUsed, scorePenalty := 0 }, s)
  else
    let s' := { s with score := max 0 (s.score - 1), skipsUsed := s.skipsUsed + 1,
                       streak := 0, currentQuestionIndex := s.currentQuestionIndex + 1 }
    .ok ({ success := true, skipsUsed := s'.skipsUsed, scorePenalty := 1 }, s')

/-- Result record of `getGameStatsTool` (lines 475–485). -/
structure StatsOut where
  playerId : String
  score : ℤ
  currentQuestion : ℕ
  totalQuestions : ℕ
  streak : ℕ
  hintsUsed : ℕ
  skipsUsed : ℕ
  correctAnswers : ℕ
  accuracy : ℤ
deriving DecidableEq, Repr

/-- The retroactive correctness re-check used by `getGameStatsTool`
(lines 462–471).  Faithful to the source: the raw answer is uppercased but
not trimmed, and a letter answer is resolved against `q0opts`, the option
list of the session's FIRST question, not the answered question's own. -/
def statsIsCorrect (q0opts : List String) (q : Question) : Bool :=
  match q.userAnswer with
  | none => false
  | some ua0 =>
    let ua := jsToUpper ua0
    if ua.length == 1 && matchesLetterAD ua then
      match q0opts.get? (letterIndex ua) with
      | some opt => opt == q.correct
      | none => false
    else
      ua == jsToUpper q.correct

/-- `getGameStatsTool.execute` on a stored session (lines 461–485).  A stored
session always has a nonempty question list, so the `[]` branch for
`questions[0]` is unreachable. -/
def getGameStatsExec (s : GameState) : StatsOut :=
  let answeredQuestions := s.questions.filter (·.answered)
  let q0opts := match s.questions with
    | [] => []
    | q0 :: _ => q0.options
  let correctAnswers := (answeredQuestions.filter (statsIsCorrect q0opts)).length
  let accuracy : ℤ :=
    if 0 < answeredQuestions.length then
      jsRound ((correctAnswers : ℚ) / answeredQuestions.length * 100)
    else 0
  { playerId := s.playerId, score := s.score,
    currentQuestion := s.currentQuestionIndex + 1,
    totalQuestions := s.questions.length, streak := s.streak,
    hintsUsed := s.hintsUsed, skipsUsed := s.skipsUsed,
    correctAnswers := correctAnswers, accuracy := accuracy }

/-- One leaderboard entry (lines 420–425). -/
structure LBEntry where
  playerId : String
  score : ℤ
  streak : ℕ
  questionsAnswered : ℕ
deriving DecidableEq, Repr

/-- Projection of a stored session to its leaderboard entry (lines 420–425). -/
def projEntry (playerId : String) (s : GameState) : LBEntry :=
  { playerId := playerId, score := s.score, streak := s.streak,
    questionsAnswered := (s.questions.filter (·.answered)).length }

/-- The descending-by-score order used by the sort comparator
`(a, b) => b.score - a.score` (line 426). -/
def scoreGe (a b : LBEntry) : Prop := b.score ≤ a.score

instance : DecidableRel scoreGe := fun a b => inferInstanceAs (Decidable (b.score ≤ a.score))

instance : IsTotal LBEntry scoreGe := ⟨fun a b => le_total b.score a.score⟩

instance : IsTrans LBEntry scoreGe := ⟨fun _ _ _ h h' => le_trans h' h⟩

/-- The session store: the `gameStates` map, as an association list in
insertion order (line 69). -/
abbrev Store := List (String × GameState)

/-- `gameStates.get(playerId)` (line 179 and analogues). -/
def findState (store : Store) (pid : String) : Option GameState :=
  (store.find? (fun p => p.1 == pid)).map (·.2)

/-- `gameStates.set(playerId, s)`: replace in place, or append if absent. -/
def setState (store : Store) (pid : String) (s : GameState) : Store :=
  if store.any (fun p => p.1 == pid) then
    store.map (fun p => if p.1 == pid then (p.1, s) else p)
  else
    store ++ [(pid, s)]

/-- `getLeaderboardTool.execute` (lines 417–433): project every stored
session, sort descending by score, keep the top 10, and report the full
store size. -/
def getLeaderboardExec (store : Store) : List LBEntry × ℕ :=
  (((store.map fun p => projEntry p.1 p.2).insertionSort scoreGe).take 10, store.length)

/-- The leaderboard tool as a store transformer: it reads the store and
leaves it untouched. -/
def leaderboardTool (store : Store) : (List LBEntry × ℕ) × Store :=
  (getLeaderboardExec store, store)

/-- `answerQuestionTool.execute` at the store level (lines 177–268): missing
session is an error and mutates nothing; otherwise the per-session step runs
and its result is written back. -/
def answerTool (store : Store) (pid : String) (answer : String) :
    Except String AnswerOut × Store :=
  match findState store pid with
  | none => (.error "No active game found. Please start a new game.", store)
  | some s =>
    match answerExec s answer with
    | .error e => (.error e, store)
    | .ok (out, s') => (.ok out, setState store pid s')

/-- `getHintTool.execute` at the store level (lines 284–327). -/
def hintTool (store : Store) (pid : String) : Except String HintOut × Store :=
  match findState store pid with
  | none => (.error "No active game found.", store)
  | some s =>
    match hintExec s with
    | .error e => (.error e, store)
    | .ok (out, s') => (.ok out, setState store pid s')

/-- `skipQuestionTool.execute` at the store level (lines 349–401). -/
def skipTool (store : Store) (pid : String) : Except String SkipOut × Store :=
  match findState store pid with
  | none => (.error "No active game found.", store)
  | some s =>
    match skipExec s with
    | .error e => (.error e, store)
    | .ok (out, s') => (.ok out, setState store pid s')

/-- The three mutating operations a player can perform on a running
session. -/
inductive Op where
  | answer (ans : String)
  | hint
  | skip
deriving DecidableEq, Repr

/-- One operation applied to a session.  A hard failure (thrown error in the
source) happens before any mutation, so it leaves the state unchanged. -/
def stepState (s : GameState) : Op → GameState
  | .answer a =>
    match answerExec s a with
    | .ok (_, s') => s'
    | .error _ => s
  | .hint =>
    match hintExec s with
    | .ok (_, s') => s'
    | .error _ => s
  | .skip =>
    match skipExec s with
    | .ok (_, s') => s'
    | .error _ => s

/-- The fresh session built by `startGameTool` (lines 106–126): every
question starts unanswered and all counters are zero. -/
def initState (pid : String) (qs : List Question) (day : String) : GameState :=
  { playerId := pid, score := 0, currentQuestionIndex := 0,
    questions := qs.map (fun q => { q with answered := false, userAnswer := none }),
    streak := 0, hintsUsed := 0, skipsUsed := 0, lastPlayed := day }

/-- Run a sequence of operations on a session. -/
def runOps (s : GameState) (ops : List Op) : GameState :=
  ops.foldl stepState s

/-- The single-letter answer string for a zero-based option index
(0 ↦ "A", …, 3 ↦ "D"). -/
def letterOfIndex (i : ℕ) : String := ⟨[Char.ofNat (65 + i)]⟩

/-- Points formula as stated by the specification (§4.2): base 10, multiplier
1 / 1.5 / 2 by difficulty (1 for anything else), rounded, plus a streak bonus
of `floor(streak/3)*2` once the post-increment streak reaches 3. -/
def specPointsForCorrectAnswer (difficulty : String) (streakAfterIncrement : ℕ) : ℤ :=
  let multiplier : ℚ :=
    if difficulty = "easy" then 1
    else if difficulty = "medium" then 3 / 2
    else if difficulty = "hard" then 2
    else 1
  let difficultyPoints : ℤ := ⌊10 * multiplier + 1 / 2⌋
  let bonus : ℤ :=
    if 3 ≤ streakAfterIncrement then ((streakAfterIncrement / 3) * 2 : ℕ) else 0
  difficultyPoints + bonus

/-! ## Concrete fixtures

Small concrete sessions used to instantiate the theorems below.  `qGeo` has
an incorrect option ("paris") that differs from the correct answer ("Paris")
only by case, which exercises the two comparison styles of `checkAnswer`. -/

def qGeo : Question :=
  { id := "q-1", category := "Geography", difficulty := "hard",
    question := "Capital of France?",
    options := ["Paris", "paris", "Lyon", "Rome"], correct := "Paris",
    answered := false, userAnswer := none }

def qSci : Question :=
  { id := "q-2", category := "Science", difficulty := "easy",
    question := "Chemical symbol of iron?",
    options := ["Fe", "Ir", "In", "F"], correct := "Fe",
    answered := false, userAnswer := none }

/-- A running session: question 0 of 2 awaiting an answer, mid-game
counters. -/
def sGame : GameState :=
  { playerId := "p1", score := 7, currentQuestionIndex := 0,
    questions := [qGeo, qSci], streak := 2, hintsUsed := 1, skipsUsed := 1,
    lastPlayed := "2026-10-11" }

/-- A completed session: the single question answered, index at the end,
skips still available. -/
def sCompleted : GameState :=
  { playerId := "p2", score := 20, currentQuestionIndex := 1,
    questions := [{ qGeo with answered := true, userAnswer := some "A" }],
    streak := 1, hintsUsed := 0, skipsUsed := 0, lastPlayed := "2026-10-11" }

/-- A session whose hints are exhausted while a question is still open. -/
def sNoHints : GameState :=
  { playerId := "p3", score := 4, currentQuestionIndex := 0,
    questions := [qGeo, qSci], streak := 1, hintsUsed := 3, skipsUsed := 0,
    lastPlayed := "2026-10-11" }

/-- A session whose skips are exhausted while a question is still open. -/
def sNoSkips : GameState :=
  { playerId := "p4", score := 4, currentQuestionIndex := 0,
    questions := [qGeo, qSci], streak := 1, hintsUsed := 0, skipsUsed := 2,
    lastPlayed := "2026-10-11" }

/-- First question of the stats fixture: "B" resolves to option "X", which
is its correct answer. -/
def qStats0 : Question :=
  { id := "q-1", category := "History", difficulty := "easy", question := "?",
    options := ["W", "X", "Y", "Z"], correct := "X",
    answered := true, userAnswer := some "B" }

/-- Second question of the stats fixture: "B" resolves to option "Paris",
its correct answer — but the stats tool looks "B" up in `qStats0.options`. -/
def qStats1 : Question :=
  { id := "q-2", category := "Geography", difficulty := "easy", question := "?",
    options := ["Rome", "Paris", "Lyon", "Oslo"], correct := "Paris",
    answered := true, userAnswer := some "B" }

/-- A completed two-question session where both answers were judged correct
at submission time. -/
def sStatsBug : GameState :=
  { playerId := "p5", score := 20, currentQuestionIndex := 2,
    questions := [qStats0, qStats1], streak := 2, hintsUsed := 0, skipsUsed := 0,
    lastPlayed := "2026-10-11" }

/-! ## Basic unfolding lemmas -/

theorem answerExec_eq (s : GameState) (a : String) (q : Question)
    (hq : s.questions.get? s.currentQuestionIndex = some q) :
    answerExec s a = .ok (applyAnswer s q a (checkAnswer q a)) := by
  unfold answerExec
  rw [hq]

theorem stepState_answer_eq (s : GameState) (a : String) (q : Question)
    (hq : s.questions.get? s.currentQuestionIndex = some q) :
    stepState s (.answer a) = (applyAnswer s q a (checkAnswer q a)).2 := by
  simp only [stepState]
  rw [answerExec_eq s a q hq]

theorem applyAnswer_true_state (s : GameState) (q : Question) (a : String) :
    (applyAnswer s q a true).2 =
      { s with questions := s.questions.set s.currentQuestionIndex
                  { q with answered := true, userAnswer := some a },
               score := s.score + scoreGained q.difficulty (s.streak + 1),
               streak := s.streak + 1,
               currentQuestionIndex := s.currentQuestionIndex + 1 } := rfl

theorem applyAnswer_false_state (s : GameState) (q : Question) (a : String) :
    (applyAnswer s q a false).2 =
      { s with questions := s.questions.set s.currentQuestionIndex
                  { q with answered := true, userAnswer := some a },
               streak := 0,
               currentQuestionIndex := s.currentQuestionIndex + 1 } := rfl

theorem hintExec_eq_some (s : GameState) (q : Question)
    (hq : s.questions.get? s.currentQuestionIndex = some q) :
    hintExec s =
      (if 3 ≤ s.hintsUsed then
        .ok ({ success := false, hintsUsed := s.hintsUsed, scorePenalty := 0 }, s)
      else
        .ok ({ success := true, hintsUsed := s.hintsUsed + 1, scorePenalty := 2 },
             { s with score := max 0 (s.score - 2), hintsUsed := s.hintsUsed + 1 })) := by
  unfold hintExec
  rw [hq]

theorem skipExec_eq (s : GameState) :
    skipExec s =
      (if 2 ≤ s.skipsUsed then
        .ok ({ success := false, skipsUsed := s.skipsUsed, scorePenalty := 0 }, s)
      else
        .ok ({ success := true, skipsUsed := s.skipsUsed + 1, scorePenalty := 1 },
             { s with score := max 0 (s.score - 1), skipsUsed := s.skipsUsed + 1,
                      streak := 0,
                      currentQuestionIndex := s.currentQuestionIndex + 1 })) := by
  unfold skipExec
  split <;> rfl

/-! ## Theorems -/

theorem scoreGained_eq_spec (d : String) (k : ℕ) :
    scoreGained d k = specPointsForCorrectAnswer d k := by
  unfold scoreGained specPointsForCorrectAnswer difficultyMultiplier streakBonus
  rw [jsRound_eq_floor]

/-- C1: a correct answer adds exactly `round(10 * multiplier) + streakBonus`
points, where the multiplier is 1 / 1.5 / 2 for easy / medium / hard (1
otherwise) and the streak bonus uses the streak value after this answer
increments it. -/
theorem c1_points_formula (s : GameState) (q : Question) (a : String)
    (hq : s.questions.get? s.currentQuestionIndex = some q)
    (hc : checkAnswer q a = true) :
    (stepState s (.answer a)).score
        = s.score + specPointsForCorrectAnswer q.difficulty (s.streak + 1)
      ∧ (stepState s (.answer a)).streak = s.streak + 1 := by
  rw [stepState_answer_eq s a q hq, hc, applyAnswer_true_state, scoreGained_eq_spec]
  exact ⟨rfl, rfl⟩

theorem c1_points_formula_witness :
    (stepState sGame (.answer "A")).score
        = sGame.score + specPointsForCorrectAnswer "hard" (sGame.streak + 1)
      ∧ (stepState sGame (.answer "A")).streak = sGame.streak + 1 :=
  c1_points_formula sGame qGeo "A" rfl (by decide)

theorem streakBonus_nonneg (k : ℕ) : 0 ≤ streakBonus k := by
  unfold streakBonus
  split
  · exact Int.natCast_nonneg _
  · exact le_refl 0

theorem scoreGained_nonneg (d : String) (k : ℕ) : 0 ≤ scoreGained d k := by
  by_cases h1 : d = "easy"
  · subst h1
    rw [scoreGained_easy]
    linarith [streakBonus_nonneg k]
  by_cases h2 : d = "medium"
  · subst h2
    rw [scoreGained_medium]
    linarith [streakBonus_nonneg k]
  by_cases h3 : d = "hard"
  · subst h3
    rw [scoreGained_hard]
    linarith [streakBonus_nonneg k]
  · rw [scoreGained_other d k h1 h2 h3]
    linarith [streakBonus_nonneg k]

theorem stepState_answer_none (s : GameState) (a : String)
    (hq : s.questions.get? s.currentQuestionIndex = none) :
    stepState s (.answer a) = s := by
  simp only [stepState]
  unfold answerExec
  rw [hq]

theorem stepState_hint_none (s : GameState)
    (hq : s.questions.get? s.currentQuestionIndex = none) :
    stepState s .hint = s := by
  simp only [stepState]
  unfold hintExec
  rw [hq]

theorem stepState_hint_fail (s : GameState) (q : Question)
    (hq : s.questions.get? s.currentQuestionIndex = some q) (h3 : 3 ≤ s.hintsUsed) :
    stepState s .hint = s := by
  simp only [stepState]
  rw [hintExec_eq_some s q hq, if_pos h3]

theorem stepState_hint_ok (s : GameState) (q : Question)
    (hq : s.questions.get? s.currentQuestionIndex = some q) (h3 : ¬ 3 ≤ s.hintsUsed) :
    stepState s .hint = { s with score := max 0 (s.score - 2),
                                 hintsUsed := s.hintsUsed + 1 } := by
  simp only [stepState]
  rw [hintExec_eq_some s q hq, if_neg h3]

theorem stepState_skip_fail (s : GameState) (h2 : 2 ≤ s.skipsUsed) :
    stepState s .skip = s := by
  simp only [stepState]
  rw [skipExec_eq s, if_pos h2]

theorem stepState_skip_ok (s : GameState) (h2 : ¬ 2 ≤ s.skipsUsed) :
    stepState s .skip = { s with score := max 0 (s.score - 1),
                                 skipsUsed := s.skipsUsed + 1, streak := 0,
                                 currentQuestionIndex := s.currentQuestionIndex + 1 } := by
  simp only [stepState]
  rw [skipExec_eq s, if_neg h2]

theorem stepState_score_nonneg (s : GameState) (op : Op) (h : 0 ≤ s.score) :
    0 ≤ (stepState s op).score := by
  cases op with
  | answer a =>
    cases hq : s.questions.get? s.currentQuestionIndex with
    | none => rw [stepState_answer_none s a hq]; exact h
    | some q =>
      rw [stepState_answer_eq s a q hq]
      cases hc : checkAnswer q a with
      | true =>
        rw [applyAnswer_true_state]
        exact add_nonneg h (scoreGained_nonneg _ _)
      | false =>
        rw [applyAnswer_false_state]
        exact h
  | hint =>
    cases hq : s.questions.get? s.currentQuestionIndex with
    | none => rw [stepState_hint_none s hq]; exact h
    | some q =>
      by_cases h3 : 3 ≤ s.hintsUsed
      · rw [stepState_hint_fail s q hq h3]; exact h
      · rw [stepState_hint_ok s q hq h3]; exact le_max_left 0 _
  | skip =>
    by_cases h2 : 2 ≤ s.skipsUsed
    · rw [stepState_skip_fail s h2]; exact h
    · rw [stepState_skip_ok s h2]; exact le_max_left 0 _

theorem runOps_cons (s : GameState) (op : Op) (ops : List Op) :
    runOps s (op :: ops) = runOps (stepState s op) ops := rfl

theorem runOps_score_nonneg (ops : List Op) :
    ∀ s : GameState, 0 ≤ s.score → 0 ≤ (runOps s ops).score := by
  induction ops with
  | nil => exact fun s h => h
  | cons op ops ih =>
    intro s h
    rw [runOps_cons]
    exact ih _ (stepState_score_nonneg s op h)

/-- C2: starting from a fresh session, the score is non-negative after any
sequence of answer / hint / skip operations; the hint and skip penalties are
clamped at zero. -/
theorem c2_score_nonneg (pid day : String) (qs : List Question) (ops : List Op) :
    0 ≤ (runOps (initState pid qs day) ops).score :=
  runOps_score_nonneg ops (initState pid qs day) (le_refl 0)

/-- C5: the streak becomes 0 after an incorrect answer, `streak + 1` after a
correct answer, is reset by a successful skip, and is never touched by a
hint request. -/
theorem c5_streak_rules (s : GameState) (q : Question)
    (hq : s.questions.get? s.currentQuestionIndex = some q) :
    (∀ a : String,
      (stepState s (.answer a)).streak = (if checkAnswer q a then s.streak + 1 else 0))
      ∧ (stepState s .hint).streak = s.streak
      ∧ (s.skipsUsed < 2 → (stepState s .skip).streak = 0) := by
  refine ⟨fun a => ?_, ?_, fun h2 => ?_⟩
  · rw [stepState_answer_eq s a q hq]
    cases hc : checkAnswer q a with
    | true => rw [applyAnswer_true_state]; rfl
    | false => rw [applyAnswer_false_state]; rfl
  · by_cases h3 : 3 ≤ s.hintsUsed
    · rw [stepState_hint_fail s q hq h3]
    · rw [stepState_hint_ok s q hq h3]
  · rw [stepState_skip_ok s (not_le.mpr h2)]

theorem c5_streak_rules_witness :
    (stepState sGame (.answer "B")).streak = 0
      ∧ (stepState sGame (.answer "A")).streak = sGame.streak + 1
      ∧ (stepState sGame .hint).streak = sGame.streak
      ∧ (stepState sGame .skip).streak = 0 := by
  refine ⟨?_, ?_, (c5_streak_rules sGame qGeo rfl).2.1,
          (c5_streak_rules sGame qGeo rfl).2.2 (by decide)⟩
  · have h := (c5_streak_rules sGame qGeo rfl).1 "B"
    rwa [show checkAnswer qGeo "B" = false from by decide, if_neg (by decide)] at h
  · have h := (c5_streak_rules sGame qGeo rfl).1 "A"
    rwa [show checkAnswer qGeo "A" = true from by decide, if_pos rfl] at h

theorem stepState_hints_le (s : GameState) (op : Op)
    (h : s.hintsUsed ≤ 3 ∧ s.skipsUsed ≤ 2) :
    (stepState s op).hintsUsed ≤ 3 ∧ (stepState s op).skipsUsed ≤ 2 := by
  cases op with
  | answer a =>
    cases hq : s.questions.get? s.currentQuestionIndex with
    | none => rw [stepState_answer_none s a hq]; exact h
    | some q =>
      rw [stepState_answer_eq s a q hq]
      cases hc : checkAnswer q a with
      | true => rw [applyAnswer_true_state]; exact h
      | false => rw [applyAnswer_false_state]; exact h
  | hint =>
    cases hq : s.questions.get? s.currentQuestionIndex with
    | none => rw [stepState_hint_none s hq]; exact h
    | some q =>
      by_cases h3 : 3 ≤ s.hintsUsed
      · rw [stepState_hint_fail s q hq h3]; exact h
      · rw [stepState_hint_ok s q hq h3]
        exact ⟨Nat.succ_le_of_lt (lt_of_not_le h3), h.2⟩
  | skip =>
    by_cases h2 : 2 ≤ s.skipsUsed
    · rw [stepState_skip_fail s h2]; exact h
    · rw [stepState_skip_ok s h2]
      exact ⟨h.1, Nat.succ_le_of_lt (lt_of_not_le h2)⟩

theorem runOps_hints_le (ops : List Op) :
    ∀ s : GameState, s.hintsUsed ≤ 3 ∧ s.skipsUsed ≤ 2 →
      (runOps s ops).hintsUsed ≤ 3 ∧ (runOps s ops).skipsUsed ≤ 2 := by
  induction ops with
  | nil => exact fun s h => h
  | cons op ops ih =>
    intro s h
    rw [runOps_cons]
    exact ih _ (stepState_hints_le s op h)

/-- C6: `hintsUsed` never exceeds 3 and `skipsUsed` never exceeds 2 along any
operation sequence; a hint request with hints exhausted and a skip request
with skips exhausted both return `success := false` and hand back the session
state completely unchanged. -/
theorem c6_resource_limits :
    (∀ (pid day : String) (qs : List Question) (ops : List Op),
      (runOps (initState pid qs day) ops).hintsUsed ≤ 3
        ∧ (runOps (initState pid qs day) ops).skipsUsed ≤ 2)
      ∧ (∀ (s : GameState) (q : Question),
          s.questions.get? s.currentQuestionIndex = some q → 3 ≤ s.hintsUsed →
          hintExec s = .ok ({ success := false, hintsUsed := s.hintsUsed,
                              scorePenalty := 0 }, s))
      ∧ (∀ s : GameState, 2 ≤ s.skipsUsed →
          skipExec s = .ok ({ success := false, skipsUsed := s.skipsUsed,
                              scorePenalty := 0 }, s)) := by
  refine ⟨fun pid day qs ops => runOps_hints_le ops _ ⟨Nat.zero_le 3, Nat.zero_le 2⟩,
          fun s q hq h3 => ?_, fun s h2 => ?_⟩
  · rw [hintExec_eq_some s q hq, if_pos h3]
  · rw [skipExec_eq s, if_pos h2]

theorem c6_resource_limits_witness :
    ((runOps (initState "p6" [qGeo] "2026-10-11") [Op.hint, .hint, .hint, .hint]).hintsUsed ≤ 3
        ∧ (runOps (initState "p6" [qGeo] "2026-10-11") [Op.hint, .hint, .hint, .hint]).skipsUsed ≤ 2)
      ∧ hintExec sNoHints = .ok ({ success := false, hintsUsed := sNoHints.hintsUsed,
                                   scorePenalty := 0 }, sNoHints)
      ∧ skipExec sNoSkips = .ok ({ success := false, skipsUsed := sNoSkips.skipsUsed,
                                   scorePenalty := 0 }, sNoSkips) :=
  ⟨c6_resource_limits.1 "p6" "2026-10-11" [qGeo] [Op.hint, .hint, .hint, .hint],
   c6_resource_limits.2.1 sNoHints qGeo rfl (by decide),
   c6_resource_limits.2.2 sNoSkips (by decide)⟩

/-- C10: an incorrect answer leaves score, hintsUsed and skipsUsed unchanged;
it only resets the streak, records the answer on the current question, and
advances the index by one. -/
theorem c10_wrong_answer_frame (s : GameState) (q : Question) (a : String)
    (hq : s.questions.get? s.currentQuestionIndex = some q)
    (hc : checkAnswer q a = false) :
    (stepState s (.answer a)).score = s.score
      ∧ (stepState s (.answer a)).hintsUsed = s.hintsUsed
      ∧ (stepState s (.answer a)).skipsUsed = s.skipsUsed
      ∧ (stepState s (.answer a)).streak = 0
      ∧ (stepState s (.answer a)).currentQuestionIndex = s.currentQuestionIndex + 1
      ∧ (stepState s (.answer a)).questions
          = s.questions.set s.currentQuestionIndex
              { q with answered := true, userAnswer := some a } := by
  rw [stepState_answer_eq s a q hq, hc, applyAnswer_false_state]
  exact ⟨rfl, rfl, rfl, rfl, rfl, rfl⟩

theorem c10_wrong_answer_frame_witness :
    (stepState sGame (.answer "Rome")).score = sGame.score
      ∧ (stepState sGame (.answer "Rome")).hintsUsed = sGame.hintsUsed
      ∧ (stepState sGame (.answer "Rome")).skipsUsed = sGame.skipsUsed
      ∧ (stepState sGame (.answer "Rome")).streak = 0
      ∧ (stepState sGame (.answer "Rome")).currentQuestionIndex
          = sGame.currentQuestionIndex + 1
      ∧ (stepState sGame (.answer "Rome")).questions
          = sGame.questions.set sGame.currentQuestionIndex
              { qGeo with answered := true, userAnswer := some "Rome" } :=
  c10_wrong_answer_frame sGame qGeo "Rome" rfl (by decide)

/-- C3, failing input: on a completed session the answer and hint tools do
throw, and on a missing session all three tools throw and leave the store
untouched — but the skip tool, which has no current-question guard, succeeds
on a completed session with skips remaining and mutates it (penalty applied,
`skipsUsed` incremented, streak cleared, index pushed past the end). -/
theorem c3_completed_skip_bug :
    answerExec sCompleted "A" = .error "No current question found."
      ∧ hintExec sCompleted = .error "No current question found."
      ∧ answerTool [] "p2" "A"
          = (.error "No active game found. Please start a new game.", [])
      ∧ hintTool [] "p2" = (.error "No active game found.", [])
      ∧ skipTool [] "p2" = (.error "No active game found.", [])
      ∧ skipExec sCompleted
          = .ok ({ success := true, skipsUsed := 1, scorePenalty := 1 },
                 { sCompleted with score := 19, skipsUsed := 1, streak := 0,
                                   currentQuestionIndex := 2 }) :=
  ⟨rfl, rfl, rfl, rfl, rfl, rfl⟩

/-- C8, failing input: a one-question game, skipped twice.  The first skip
completes the game (index 1 = question count); the unguarded second skip then
pushes the index to 2, violating `currentIndex ≤ len(questions)` and the
completion biconditional. -/
theorem c8_index_overflow_bug :
    (initState "p8" [qSci] "2026-10-11").questions.length = 1
      ∧ (runOps (initState "p8" [qSci] "2026-10-11") [Op.skip, Op.skip]).currentQuestionIndex
          = 2 := by
  exact ⟨rfl, by decide⟩

theorem checkAnswer_letter_path (q : Question) (a : String)
    (h : matchesLetterAD (jsNormalize a) = true) :
    checkAnswer q a =
      (match q.options.get? (letterIndex (jsNormalize a)) with
       | some opt => opt == q.correct
       | none => false) := by
  simp only [checkAnswer, h]
  rfl

theorem checkAnswer_text_path (q : Question) (a : String)
    (h : matchesLetterAD (jsNormalize a) = false) :
    checkAnswer q a = (jsNormalize a == jsToUpper q.correct) := by
  simp only [checkAnswer, h]
  rfl

theorem letter_facts (i : ℕ) (hi : i < 4) :
    jsNormalize (letterOfIndex i) = letterOfIndex i
      ∧ matchesLetterAD (letterOfIndex i) = true
      ∧ letterIndex (letterOfIndex i) = i := by
  interval_cases i <;> exact ⟨by decide, by decide, by decide⟩

/-- C7, counterexample: in `qGeo` the option at index 1 is "paris" while the
stored correct answer is "Paris".  Submitting the letter "B" resolves to that
option and compares it to the correct answer case-sensitively (incorrect),
while submitting the same option's literal text compares case-insensitively
(correct): verdict and resulting streak differ. -/
theorem c7_letter_vs_text_counterexample :
    qGeo.options.get? 1 = some "paris"
      ∧ checkAnswer qGeo "B" = false
      ∧ checkAnswer qGeo "paris" = true
      ∧ (stepState sGame (.answer "B")).streak = 0
      ∧ (stepState sGame (.answer "paris")).streak = sGame.streak + 1 := by
  exact ⟨rfl, by decide, by decide, by decide, by decide⟩

/-- C7 as amended: submitting the letter for option index `i` is equivalent
to submitting that option's literal text PROVIDED the option's exact match
with the stored correct answer coincides with its normalised
(trimmed-uppercase) match and the option's normalised text is not itself a
single letter A–D; and any two submissions with the same trimmed-uppercase
form always produce the same verdict, score, streak and index advance —
only the recorded raw `userAnswer` may differ. -/
theorem c7_normalization_amended :
    (∀ (s : GameState) (q : Question) (i : ℕ) (opt : String),
      s.questions.get? s.currentQuestionIndex = some q →
      q.options.get? i = some opt → i < 4 →
      matchesLetterAD (jsNormalize opt) = false →
      (opt == q.correct) = (jsNormalize opt == jsToUpper q.correct) →
      checkAnswer q (letterOfIndex i) = checkAnswer q opt
        ∧ (stepState s (.answer (letterOfIndex i))).score
            = (stepState s (.answer opt)).score
        ∧ (stepState s (.answer (letterOfIndex i))).streak
            = (stepState s (.answer opt)).streak
        ∧ (stepState s (.answer (letterOfIndex i))).currentQuestionIndex
            = (stepState s (.answer opt)).currentQuestionIndex)
      ∧ (∀ (s : GameState) (a b : String), jsNormalize a = jsNormalize b →
          (∀ q : Question, checkAnswer q a = checkAnswer q b)
            ∧ (stepState s (.answer a)).score = (stepState s (.answer b)).score
            ∧ (stepState s (.answer a)).streak = (stepState s (.answer b)).streak
            ∧ (stepState s (.answer a)).currentQuestionIndex
                = (stepState s (.answer b)).currentQuestionIndex) := by
  constructor
  · intro s q i opt hq hopt hi hlet hiff
    obtain ⟨hn, hm, hidx⟩ := letter_facts i hi
    have hv : checkAnswer q (letterOfIndex i) = checkAnswer q opt := by
      rw [checkAnswer_letter_path q _ (by rw [hn]; exact hm),
          checkAnswer_text_path q opt hlet, hn, hidx, hopt, ← hiff]
    refine ⟨hv, ?_, ?_, ?_⟩ <;>
      · rw [stepState_answer_eq s _ q hq, stepState_answer_eq s _ q hq, hv]
        cases checkAnswer q opt
        · rw [applyAnswer_false_state, applyAnswer_false_state]
        · rw [applyAnswer_true_state, applyAnswer_true_state]
  · intro s a b hn
    have hv : ∀ q : Question, checkAnswer q a = checkAnswer q b := by
      intro q
      unfold checkAnswer
      rw [hn]
    refine ⟨hv, ?_, ?_, ?_⟩ <;>
      · cases hq : s.questions.get? s.currentQuestionIndex with
        | none => rw [stepState_answer_none s a hq, stepState_answer_none s b hq]
        | some q =>
          rw [stepState_answer_eq s a q hq, stepState_answer_eq s b q hq, hv q]
          cases checkAnswer q b
          · rw [applyAnswer_false_state, applyAnswer_false_state]
          · rw [applyAnswer_true_state, applyAnswer_true_state]

theorem c7_normalization_amended_witness :
    (checkAnswer qGeo (letterOfIndex 0) = checkAnswer qGeo "Paris"
        ∧ (stepState sGame (.answer (letterOfIndex 0))).score
            = (stepState sGame (.answer "Paris")).score
        ∧ (stepState sGame (.answer (letterOfIndex 0))).streak
            = (stepState sGame (.answer "Paris")).streak
        ∧ (stepState sGame (.answer (letterOfIndex 0))).currentQuestionIndex
            = (stepState sGame (.answer "Paris")).currentQuestionIndex)
      ∧ ((∀ q : Question, checkAnswer q " paris " = checkAnswer q "PARIS")
        ∧ (stepState sGame (.answer " paris ")).score
            = (stepState sGame (.answer "PARIS")).score
        ∧ (stepState sGame (.answer " paris ")).streak
            = (stepState sGame (.answer "PARIS")).streak
        ∧ (stepState sGame (.answer " paris ")).currentQuestionIndex
            = (stepState sGame (.answer "PARIS")).currentQuestionIndex) :=
  ⟨c7_normalization_amended.1 sGame qGeo 0 "Paris" rfl rfl (by decide) (by decide) (by decide),
   c7_normalization_amended.2 sGame " paris " "PARIS" (by decide)⟩

/-- C9: the leaderboard reports the full store size as `totalPlayers`, is
sorted descending by score, has exactly `min 10 totalPlayers` entries, is a
prefix of a permutation of the projections of all stored sessions, and the
tool hands the store back unchanged. -/
theorem c9_leaderboard (store : Store) :
    (getLeaderboardExec store).2 = store.length
      ∧ List.Sorted scoreGe (getLeaderboardExec store).1
      ∧ (getLeaderboardExec store).1.length = min 10 store.length
      ∧ ((getLeaderboardExec store).1
            ++ ((store.map fun p => projEntry p.1 p.2).insertionSort scoreGe).drop 10).Perm
          (store.map fun p => projEntry p.1 p.2)
      ∧ (leaderboardTool store).2 = store := by
  refine ⟨rfl, ?_, ?_, ?_, rfl⟩
  · exact List.Pairwise.sublist (List.take_sublist 10 _)
      (List.sorted_insertionSort scoreGe _)
  · show (List.take 10 _).length = _
    rw [List.length_take, (List.perm_insertionSort scoreGe _).length_eq, List.length_map]
  · show (List.take 10 _ ++ List.drop 10 _).Perm _
    rw [List.take_append_drop]
    exact List.perm_insertionSort scoreGe _

/-- C4, failing input: in `sStatsBug` both questions were answered "B", and
the submission-time rule judges both correct against each question's own
options; the stats tool, which resolves every letter answer against the
FIRST question's options, counts only one of them and reports 50% accuracy
instead of 100%. -/
theorem c4_stats_rederivation_bug :
    checkAnswer qStats0 "B" = true
      ∧ checkAnswer qStats1 "B" = true
      ∧ (getGameStatsExec sStatsBug).correctAnswers = 1
      ∧ (getGameStatsExec sStatsBug).accuracy = 50 := by
  refine ⟨by decide, by decide, by decide, ?_⟩
  have h : (getGameStatsExec sStatsBug).accuracy
      = jsRound (((1 : ℕ) : ℚ) / ((2 : ℕ) : ℚ) * 100) := rfl
  rw [h, jsRound_eq_floor]
  norm_num

end Trivia
